import Mathlib

/-!
# Shallow embedding of the segregated-free-list allocator

This file embeds the block engine of the repository (the final variant:
segmalloc.c together with seg_malloc.h) into Lean and proves properties of
the embedding.

Modelling conventions:
* Machine addresses and 64-bit words are natural numbers; the engine only
  ever stores sizes far below 2^62, so no wrap-around occurs on the values
  the theorems quantify over (noted locally where C arithmetic could wrap).
* Memory is modelled at 64-bit word granularity (a function from byte
  address to word value).  Every header, footer and link access in the
  engine is an aligned 8-byte access, so word granularity is faithful;
  the byte-wise _memcpy is modelled as a word loop, see its doc comment.
* The null pointer is the address 0.
* A C assertion failure, a fall-off-the-end of a non-void function, or a
  dereference of a null pointer yields Option.none.
* sbrk is modelled by a monotone brk counter; mmap by a monotone map_next
  counter placed far above the heap, so that mapped addresses compare
  greater than heap addresses exactly as they do in the running program.
-/

/-- ALIGNMENT from seg_malloc.h: 8-byte alignment unit. -/
def ALIGNMENT : ℕ := 8

/-- ALIGN(x) = (((x) + (ALIGNMENT - 1)) and not (ALIGNMENT - 1)): round x up
to a multiple of 8. -/
def ALIGN (x : ℕ) : ℕ := (x + 7) / 8 * 8

/-- MIN_SIZE from seg_malloc.h. -/
def MIN_SIZE : ℕ := 16

/-- MAX_SIZE from seg_malloc.h. -/
def MAX_SIZE : ℕ := 1024

/-- sizeof(Header) for struct header { uint64_t flags; Header* next; Header* prev; }
on the 64-bit target: 24 bytes. -/
def sizeofHeader : ℕ := 24

/-- sizeof(Footer) = sizeof(uint64_t) = 8 bytes. -/
def sizeofFooter : ℕ := 8

/-- HEADER_SIZE = ALIGN(sizeof(Header)) = 24. -/
def HEADER_SIZE : ℕ := ALIGN sizeofHeader

/-- FOOTER_SIZE = ALIGN(sizeof(Footer)) = 8. -/
def FOOTER_SIZE : ℕ := ALIGN sizeofFooter

/-- MIN_SIZE_BLOCK = HEADER_SIZE + FOOTER_SIZE = 32 (seg_malloc.h line 24). -/
def MIN_SIZE_BLOCK : ℕ := HEADER_SIZE + FOOTER_SIZE

/-- PAGE_SIZE = sysconf(_SC_PAGESIZE); the standard 4096 on the target. -/
def PAGE_SIZE : ℕ := 4096

/-- ALLOC_SIZE(x) = ((x) < 16 ? 16 : ALIGN(x)): 8-byte align with a 16-byte floor. -/
def ALLOC_SIZE (x : ℕ) : ℕ := if x < 16 then 16 else ALIGN x

/-- MIN_MAP_SIZE = 1025. -/
def MIN_MAP_SIZE : ℕ := 1025

/-- HEAP_SIZE(size) = (ALLOC_SIZE(size) < MIN_MAP_SIZE): true when the request
is served from the heap (small regime), false when it is mmap-served. -/
def HEAP_SIZE (size : ℕ) : Bool := decide (ALLOC_SIZE size < MIN_MAP_SIZE)

/-- HEAP_INC(x) = ALLOC_SIZE(x) + sizeof(uint64_t) + FOOTER_SIZE: total bytes of
a heap block (header + payload + footer). -/
def HEAP_INC (x : ℕ) : ℕ := ALLOC_SIZE x + 8 + FOOTER_SIZE

/-- MAP_INC(x) = ALLOC_SIZE(x) + sizeof(uint64_t): total bytes of a mapped block
(header + payload, no footer). -/
def MAP_INC (x : ℕ) : ℕ := ALLOC_SIZE x + 8

/-- SPLIT_SIZE(full_size, size) = ((full_size - FOOTER_SIZE - ALIGN(sizeof(uint64_t)))
- ALLOC_SIZE(size)).  The C subtraction is 64-bit; its only call site is guarded by
WORTH_SPLIT, under which no wrap occurs, so truncated subtraction is faithful. -/
def SPLIT_SIZE (full_size size : ℕ) : ℕ := full_size - FOOTER_SIZE - ALIGN 8 - ALLOC_SIZE size

/-- WORTH_SPLIT(full_size, size) = (full_size >= MIN_SIZE_BLOCK + ALLOC_SIZE(size)). -/
def WORTH_SPLIT (full_size size : ℕ) : Bool :=
  decide (MIN_SIZE_BLOCK + ALLOC_SIZE size ≤ full_size)

/-- NUM_BUCKETS = 8. -/
def NUM_BUCKETS : ℕ := 8

/-- PAGES(x) = ceil((float)x / PAGE_SIZE), exact for the magnitudes the engine
passes (far below the float precision limit). -/
def PAGES (x : ℕ) : ℕ := (x + PAGE_SIZE - 1) / PAGE_SIZE

/-- The while loop of _bucket_index (seg_malloc.h lines 89-96):
while (bucket < MAX_SIZE) { if (size > bucket and size < (bucket << 1)) return idx;
idx++; bucket <<= 1; }.  Falling out of the loop falls off the end of the non-void
function: undefined in C, modelled as none.  The loop is entered at bucket = 16 and
doubles bucket each iteration, so at most 6 iterations run; fuel 16 is ample and
fuel exhaustion (also none) is unreachable from the real entry point. -/
def bucket_index_loop : ℕ → ℕ → ℕ → ℕ → Option ℕ
  | 0, _, _, _ => none
  | fuel + 1, size, bucket, idx =>
    if bucket < MAX_SIZE then
      if size > bucket ∧ size < 2 * bucket then some idx
      else bucket_index_loop fuel size (2 * bucket) (idx + 1)
    else none

/-- _bucket_index from seg_malloc.h lines 82-97.  The C function returns int and
can fall off its end without returning (undefined); the result is therefore an
Option. -/
def _bucket_index (size : ℕ) : Option ℕ :=
  if size ≤ MIN_SIZE then some 0
  else if size > MAX_SIZE then some (NUM_BUCKETS - 1)
  else bucket_index_loop 16 size MIN_SIZE 1

/-- BUCKET_INDEX(x) = _bucket_index(x).  _bucket_index takes uint32_t, so the
64-bit flags word passed at the call sites is truncated mod 2^32. -/
def BUCKET_INDEX (x : ℕ) : Option ℕ := _bucket_index (x % 2 ^ 32)

/-- Value of the C expression (f and 1) on the 64-bit flags word: the A
(allocated) bit. -/
def and1 (f : ℕ) : ℕ := f % 2

/-- Value of the C expression (f and 2) on the 64-bit flags word: the M
(mapped) bit, as the value 0 or 2. -/
def and2 (f : ℕ) : ℕ := f % 4 / 2 * 2

/-- Value of the C expression (f and not 1): clear the A bit. -/
def and_not1 (f : ℕ) : ℕ := f / 2 * 2

/-- Value of the C expression (f and not 3): clear the A and M bits,
leaving the payload size. -/
def and_not3 (f : ℕ) : ℕ := f / 4 * 4

/-- Value of the C expression (f or 1): set the A bit. -/
def or1 (f : ℕ) : ℕ := f / 2 * 2 + 1

/-- Value of the C expression (f or 2): set the M bit. -/
def or2 (f : ℕ) : ℕ := f / 4 * 4 + 2 + f % 2

/-- Word-granular memory: byte address of an aligned 8-byte word to its value. -/
def Mem : Type := ℕ → ℕ

/-- Store the word v at address a. -/
def wr (m : Mem) (a v : ℕ) : Mem := fun x => if x = a then v else m x

/-- The engine state: memory, the eight bucket heads (index to header address,
0 = NULL), the two heap extent pointers, and the models of the two OS
primitives (sbrk break, next mmap placement). -/
structure AllocState where
  mem : Mem
  buckets : ℕ → ℕ
  heap_start : ℕ
  heap_end : ℕ
  brk : ℕ
  map_next : ℕ

/-- A header struct at address a stores flags at a, next at a+8, prev at a+16. -/
def nextOff : ℕ := 8

/-- Offset of the prev field inside a header. -/
def prevOff : ℕ := 16

/-- ALIGN(sizeof(uint64_t)): the distance between a block header and its
payload pointer, used by seg_malloc (line 350) and seg_free (line 395). -/
def PTR_OFF : ℕ := ALIGN 8

/-- The header address seg_free recovers from a payload pointer:
(Header*)((char*)ptr - ALIGN(sizeof(uint64_t))). -/
def free_header_of (ptr : ℕ) : ℕ := ptr - PTR_OFF

/-- chunk_get (segmalloc.c lines 56-75): obtain a chunk from the OS.  Heap
requests come from sbrk (the old break is returned, the break advances by
HEAP_INC) and update heap_start (first time) and heap_end; map requests come
from mmap with PAGES(MAP_INC(size)) pages and leave the heap extent alone. -/
def chunk_get (s : AllocState) (size : ℕ) : AllocState × ℕ :=
  if HEAP_SIZE size then
    let b := s.brk
    let s := { s with brk := s.brk + HEAP_INC size }
    let s := if s.heap_start = 0 then { s with heap_start := b } else s
    ({ s with heap_end := b + HEAP_INC size }, b)
  else
    let b := s.map_next
    ({ s with map_next := s.map_next + PAGES (MAP_INC size) * PAGE_SIZE }, b)

/-- blk_create (lines 77-90): get a chunk, set flags = ALLOC_SIZE(size) for a
heap block or ALLOC_SIZE(size) | 2 for a mapped block, and write the footer
(= the flags word) for heap blocks only. -/
def blk_create (s : AllocState) (size : ℕ) : AllocState × ℕ :=
  let (s, b) := chunk_get s size
  let fl := if HEAP_SIZE size then ALLOC_SIZE size else or2 (ALLOC_SIZE size)
  let m := wr s.mem b fl
  let m := if HEAP_SIZE size then wr m (b + HEAP_INC size - FOOTER_SIZE) fl else m
  ({ s with mem := m }, b)

/-- blk_insert (lines 92-111): push free_blk as the head of the bucket indexed
by BUCKET_INDEX(free_blk->flags).  In the empty-bucket branch the C code
re-reads BUCKET_INDEX(free_blk->flags) after writing the next/prev fields;
those writes are at b+8 and b+16 and can never change the flags word at b, so
a single index suffices there.  In the non-empty branch the write to the old
head's prev field precedes the later re-reads of the flags word, so the index
is recomputed from the updated memory exactly as the C does. -/
def blk_insert (s : AllocState) (b : ℕ) : Option AllocState :=
  match BUCKET_INDEX (s.mem b) with
  | none => none
  | some i =>
    if s.buckets i = 0 then
      some { s with mem := wr (wr s.mem (b + nextOff) 0) (b + prevOff) 0,
                    buckets := wr s.buckets i b }
    else
      let head := s.buckets i
      let m1 := wr s.mem (head + prevOff) b
      match BUCKET_INDEX (m1 b) with
      | none => none
      | some i2 =>
        let m2 := wr m1 (b + nextOff) (s.buckets i2)
        let m3 := wr m2 (b + prevOff) 0
        match BUCKET_INDEX (m3 b) with
        | none => none
        | some i3 => some { s with mem := m3, buckets := wr s.buckets i3 b }

/-- blk_remove (lines 113-132): unlink free_blk from its bucket.  The head
test uses BUCKET_INDEX(flags and not 1); the head branch then re-reads
BUCKET_INDEX(flags) (unmasked) with memory unchanged, so that one index is
computed once here.  In the non-head branch a null prev (or null next with
non-null list shape the code dereferences) would be a null dereference in C,
modelled as none. -/
def blk_remove (s : AllocState) (b : ℕ) : Option AllocState :=
  match BUCKET_INDEX (and_not1 (s.mem b)) with
  | none => none
  | some i1 =>
    if b = s.buckets i1 then
      match BUCKET_INDEX (s.mem b) with
      | none => none
      | some i2 =>
        let bk := wr s.buckets i2 (s.mem (b + nextOff))
        if bk i2 ≠ 0 then
          if s.mem (bk i2 + prevOff) ≠ 0 then
            some { s with buckets := bk, mem := wr s.mem (bk i2 + prevOff) 0 }
          else some { s with buckets := bk }
        else some { s with buckets := bk }
    else
      if s.mem (b + nextOff) = 0 then
        let p := s.mem (b + prevOff)
        if p = 0 then none
        else some { s with mem := wr s.mem (p + nextOff) 0 }
      else
        let nx := s.mem (b + nextOff)
        let m1 := wr s.mem (nx + prevOff) (s.mem (b + prevOff))
        let p1 := m1 (b + prevOff)
        if p1 = 0 then none
        else some { s with mem := wr m1 (p1 + nextOff) (m1 (b + nextOff)) }

/-- The loop of first_fit (lines 134-145):
for (; ptr != NULL; ptr = ptr->next) if (size < ptr->flags) return ptr; return NULL.
A returned address is the found block; the returned value 0 is the C NULL result.
The fuel bounds the list traversal; every state the theorems touch has lists far
shorter than 64, so fuel exhaustion (none) is never reached there. -/
def first_fit_loop : ℕ → AllocState → ℕ → ℕ → Option ℕ
  | 0, _, _, _ => none
  | fuel + 1, s, ptr, size =>
    if ptr = 0 then some 0
    else if size < s.mem ptr then some ptr
    else first_fit_loop fuel s (s.mem (ptr + nextOff)) size

/-- first_fit (lines 134-145): scan the list of bucket bucket_idx for the first
block with size < ptr->flags (note: strictly less). -/
def first_fit (s : AllocState) (bucket_idx size : ℕ) : Option ℕ :=
  first_fit_loop 64 s (s.buckets bucket_idx) size

/-- The while loop of search_free_blk (lines 152-157): scan buckets from
bucket_idx up to NUM_BUCKETS - 1.  The loop runs at most 8 iterations, so
fuel 8 always suffices from the real entry point. -/
def search_loop : ℕ → AllocState → ℕ → ℕ → Option ℕ
  | 0, _, _, idx => if idx < NUM_BUCKETS then none else some 0
  | fuel + 1, s, size, idx =>
    if idx < NUM_BUCKETS then
      match first_fit s idx size with
      | none => none
      | some r => if r ≠ 0 then some r else search_loop fuel s size (idx + 1)
    else some 0

/-- search_free_blk (lines 147-159): first_fit across buckets from
BUCKET_INDEX(size) upward; the value 0 is the C NULL result (no hit). -/
def search_free_blk (s : AllocState) (size : ℕ) : Option ℕ :=
  match BUCKET_INDEX size with
  | none => none
  | some i => search_loop 8 s size i

/-- check_prev_free (lines 184-197): the block is not the first heap block and
the footer word right below it has the A bit clear. -/
def check_prev_free (s : AllocState) (b : ℕ) : Bool :=
  if s.heap_start = b then false
  else if and1 (s.mem (b - FOOTER_SIZE)) ≠ 0 then false
  else true

/-- check_next_free (lines 199-214): the header one block above exists
(is not heap_end) and has the A bit clear. -/
def check_next_free (s : AllocState) (b : ℕ) : Bool :=
  let size := and_not1 (s.mem b)
  let next_header := b + ALIGN 8 + ALIGN size + ALIGN sizeofFooter
  if next_header = s.heap_end then false
  else if and1 (s.mem next_header) ≠ 0 then false
  else true

/-- mark_alloc (lines 216-225): set the A bit and write the footer (at the
offset computed from the pre-update flags word) with the updated flags.
The footer write is performed unconditionally, for mapped blocks too. -/
def mark_alloc (s : AllocState) (b : ℕ) : AllocState :=
  let size := s.mem b
  let m1 := wr s.mem b (or1 (s.mem b))
  { s with mem := wr m1 (b + HEAP_INC size - FOOTER_SIZE) (m1 b) }

/-- mark_dealloc (lines 227-241): clear the A bit, write the footer only when
the M bit is clear, then null the next/prev links. -/
def mark_dealloc (s : AllocState) (b : ℕ) : AllocState :=
  let size := and_not3 (s.mem b)
  let m1 := wr s.mem b (and_not1 (s.mem b))
  let m2 := if and2 (m1 b) = 0 then wr m1 (b + HEAP_INC size - FOOTER_SIZE) (m1 b) else m1
  { s with mem := wr (wr m2 (b + nextOff) 0) (b + prevOff) 0 }

/-- split (lines 243-271): remove the block, write the left header/footer with
payload ALLOC_SIZE(size) and the right header/footer with payload
SPLIT_SIZE(full_size, size), then insert both halves. -/
def split (s : AllocState) (b size : ℕ) : Option AllocState :=
  let full_size := s.mem b
  match blk_remove s b with
  | none => none
  | some s =>
    let right_split_size := SPLIT_SIZE full_size size
    let left_split_size := ALLOC_SIZE size
    let m := wr s.mem b left_split_size
    let left_split_footer := b + left_split_size + 8
    let m := wr m left_split_footer left_split_size
    let right_split_header := left_split_footer + FOOTER_SIZE
    let m := wr m right_split_header right_split_size
    let m := wr m (right_split_header + HEAP_INC right_split_size - FOOTER_SIZE)
                right_split_size
    match blk_insert { s with mem := m } b with
    | none => none
    | some s => blk_insert s right_split_header

/-- coalesce_next (lines 291-311): merge with the block at
b + HEAP_INC(flags); the merged size is next->flags + flags
+ ALIGN(sizeof(uint64_t)) + ALIGN(sizeof(Footer)), computed before the
removal of the next block, then header and footer are rewritten. -/
def coalesce_next (s : AllocState) (b : ℕ) : Option (AllocState × ℕ) :=
  let next_blk := b + HEAP_INC (s.mem b)
  let full_size := s.mem next_blk + s.mem b + ALIGN 8 + ALIGN sizeofFooter
  match blk_remove s next_blk with
  | none => none
  | some s =>
    let m := wr s.mem b full_size
    let m := wr m (b + HEAP_INC full_size - FOOTER_SIZE) full_size
    some ({ s with mem := m }, b)

/-- coalesce_prev (lines 313-338): the previous block's size is read from the
footer below b, its header sits FOOTER_SIZE + ALIGN(8) + ALIGN(prev_size)
below b; the merged size is prev_size + flags + ALIGN(sizeof(uint64_t))
+ FOOTER_SIZE, computed before the removal of the previous block. -/
def coalesce_prev (s : AllocState) (b : ℕ) : Option (AllocState × ℕ) :=
  let prev_size := s.mem (b - FOOTER_SIZE)
  let prev_blk := b - FOOTER_SIZE - ALIGN 8 - ALIGN prev_size
  let full_size := prev_size + s.mem b + ALIGN 8 + FOOTER_SIZE
  match blk_remove s prev_blk with
  | none => none
  | some s =>
    let m := wr s.mem prev_blk full_size
    let m := wr m (prev_blk + HEAP_INC full_size - FOOTER_SIZE) full_size
    some ({ s with mem := m }, prev_blk)

/-- coalesce (lines 273-289): dispatch on the freeness of the two address
neighbors; with both free, coalesce with the previous first, then the next. -/
def coalesce (s : AllocState) (b : ℕ) : Option (AllocState × ℕ) :=
  let _next_free := check_next_free s b
  let _prev_free := check_prev_free s b
  if _next_free && !_prev_free then coalesce_next s b
  else if !_next_free && _prev_free then coalesce_prev s b
  else if _next_free && _prev_free then
    match coalesce_prev s b with
    | none => none
    | some (s, b) => coalesce_next s b
  else some (s, b)

/-- new_free_blk (lines 173-182): create a block and insert it into its
bucket (unconditionally, mapped blocks included), returning its header. -/
def new_free_blk (s : AllocState) (size : ℕ) : Option (AllocState × ℕ) :=
  match blk_create s size with
  | (s, b) =>
    match blk_insert s b with
    | none => none
    | some s => some (s, b)

/-- get_free_blk (lines 161-171): search the free lists; on a hit split when
WORTH_SPLIT holds and the M bit is clear, and return the found header; on a
miss create a fresh block via new_free_blk. -/
def get_free_blk (s : AllocState) (size : ℕ) : Option (AllocState × ℕ) :=
  match search_free_blk s size with
  | none => none
  | some free_blk =>
    if free_blk ≠ 0 then
      if WORTH_SPLIT (s.mem free_blk) size ∧ and2 (s.mem free_blk) = 0 then
        (split s free_blk size).map fun s => (s, free_blk)
      else some (s, free_blk)
    else new_free_blk s size

/-- The loop of _memcpy (seg_malloc.h lines 102-115) copies num bytes one at
a time, forward.  The engine's only call site (seg_realloc line 384) passes
8-aligned source and destination pointers and a num that is the and-not-3 of
a flags word holding an 8-aligned payload size, so the byte loop is modelled
faithfully at word granularity: num / 8 words copied forward, each read
happening after the writes that precede it, exactly as in the byte loop. -/
def memcpy_loop : ℕ → Mem → ℕ → ℕ → Mem
  | 0, m, _, _ => m
  | k + 1, m, dst, src => memcpy_loop k (wr m dst (m src)) (dst + 8) (src + 8)

/-- _memcpy / MEMCPY from seg_malloc.h: copy num bytes from src to dst. -/
def MEMCPY (m : Mem) (dst src num : ℕ) : Mem := memcpy_loop (num / 8) m dst src

/-- seg_malloc (lines 340-351): assert size > 0, get a free block, remove it
from its bucket, mark it allocated, and return the payload pointer
header + ALIGN(sizeof(uint64_t)). -/
def seg_malloc (s : AllocState) (size : ℕ) : Option (AllocState × ℕ) :=
  if size = 0 then none
  else
    match get_free_blk s size with
    | none => none
    | some (s, header) =>
      match blk_remove s header with
      | none => none
      | some s => some (mark_alloc s header, header + PTR_OFF)

/-- seg_free (lines 391-411): assert the pointer is non-null and above
heap_start and the header has the A bit set; mark deallocated; for heap
blocks coalesce and insert the result, for mapped blocks munmap the region
(which only returns address space to the OS and does not change any state
the engine later reads, so the model keeps the state). -/
def seg_free (s : AllocState) (ptr : ℕ) : Option AllocState :=
  if ptr = 0 ∨ ¬ s.heap_start < ptr then none
  else
    let header := free_header_of ptr
    if and1 (s.mem header) = 0 then none
    else
      let s := mark_dealloc s header
      if and2 (s.mem header) = 0 then
        match coalesce s header with
        | none => none
        | some (s, free_blk) => blk_insert s free_blk
      else
        some s

/-- The old-payload byte count that seg_realloc (line 381) reads from the
header of the pointer being reallocated: header->flags and not 3.  This is
the num argument of the MEMCPY at line 384. -/
def realloc_old_size (s : AllocState) (ptr : ℕ) : ℕ :=
  and_not3 (s.mem (free_header_of ptr))

/-- seg_realloc (lines 370-389): a null pointer acts as malloc; a zero size
frees the pointer and then FALLS THROUGH to read the (now freed) header,
malloc a new block of the requested size, copy old_size bytes and free the
old pointer again. -/
def seg_realloc (s : AllocState) (ptr size : ℕ) : Option (AllocState × ℕ) :=
  if ptr = 0 then seg_malloc s size
  else
    match (if size = 0 then seg_free s ptr else some s) with
    | none => none
    | some s =>
      let old_size := realloc_old_size s ptr
      match seg_malloc s size with
      | none => none
      | some (s, new_ptr) =>
        let s := { s with mem := MEMCPY s.mem new_ptr ptr old_size }
        match seg_free s ptr with
        | none => none
        | some s => some (s, new_ptr)

set_option maxHeartbeats 4000000

/-- The all-zero memory used to build concrete witness states. -/
def memZero : Mem := fun _ => 0

/-- The all-null bucket array used to build concrete witness states. -/
def bk0 : ℕ → ℕ := fun _ => 0

/-- Witness state, coalesce case prev-allocated/next-allocated: the freed
24-byte block at 1000 is the first heap block and its next neighbor at 1040
is allocated (flags 17). -/
def c1aState : AllocState :=
  { mem := wr (wr memZero 1000 24) 1040 17, buckets := bk0,
    heap_start := 1000, heap_end := 9999, brk := 2000, map_next := 100000 }

/-- Witness state, coalesce case next-free: freed 24-byte block at 1000 with
an allocated previous neighbor (footer 17 at 992) and a free 48-byte next
neighbor at 1040 sitting alone in bucket 2. -/
def c1bState : AllocState :=
  { mem := wr (wr (wr memZero 1000 24) 992 17) 1040 48,
    buckets := wr bk0 2 1040,
    heap_start := 500, heap_end := 2000, brk := 3000, map_next := 100000 }

/-- Witness state, coalesce case prev-free: freed 24-byte block at 1056 whose
free 16-byte previous neighbor at 1024 (footer 16 at 1048) sits alone in
bucket 0, and whose next header address 1096 is heap_end. -/
def c1cState : AllocState :=
  { mem := wr (wr (wr memZero 1056 24) 1048 16) 1024 16,
    buckets := wr bk0 0 1024,
    heap_start := 500, heap_end := 1096, brk := 3000, map_next := 100000 }

/-- Witness state, coalesce case both-free: freed 24-byte block at 1040 with
a free 16-byte previous neighbor at 1008 (bucket 0) and a free 48-byte next
neighbor at 1080 (bucket 2). -/
def c1dState : AllocState :=
  { mem := wr (wr (wr (wr memZero 1040 24) 1032 16) 1008 16) 1080 48,
    buckets := wr (wr bk0 0 1008) 2 1080,
    heap_start := 900, heap_end := 1144, brk := 3000, map_next := 100000 }

/-- The empty engine start state: no heap yet, all buckets null, the break at
1000 and the mmap region far above it. -/
def st0 : AllocState :=
  { mem := memZero, buckets := bk0, heap_start := 0, heap_end := 0,
    brk := 1000, map_next := 100000 }

/-- Witness state for the split policy: a free 56-byte block at 1000 sitting
alone in bucket 2. -/
def c2State : AllocState :=
  { mem := wr memZero 1000 56, buckets := wr bk0 2 1000,
    heap_start := 500, heap_end := 2000, brk := 3000, map_next := 100000 }

/-- Counterexample state for first_fit: a free block of payload exactly 16 at
1000 sitting alone in bucket 0. -/
def c3State : AllocState :=
  { mem := wr memZero 1000 16, buckets := wr bk0 0 1000,
    heap_start := 500, heap_end := 2000, brk := 3000, map_next := 100000 }

/-- The state right after seg_malloc(24) on the empty engine: one allocated
24-byte block, header 1000, payload pointer 1008. -/
def c5State : AllocState := ((seg_malloc st0 24).getD (st0, 0)).1

/-- c5State with the three payload words of the allocated block filled with
the caller values 111, 222 and 999. -/
def c4State : AllocState :=
  { c5State with mem := wr (wr (wr c5State.mem 1008 111) 1016 222) 1024 999 }

/-- Counterexample state for the footer gating: a free mapped block (payload
2000, flags 2000 or 2 = 2002) at address 100000. -/
def c7State : AllocState :=
  { mem := wr memZero 100000 2002, buckets := bk0, heap_start := 0,
    heap_end := 0, brk := 1000, map_next := 100000 }

/-- Witness state for the no-split path: a free 40-byte block at 1000 sitting
alone in bucket 2. -/
def c9State : AllocState :=
  { mem := wr memZero 1000 40, buckets := wr bk0 2 1000,
    heap_start := 500, heap_end := 2000, brk := 3000, map_next := 100000 }

/-- Witness state for the never-split-mapped rule: a free block carrying the
M bit (flags 2066 = payload 2064 or 2) listed in bucket 7, large enough that
WORTH_SPLIT holds for a request of 2000. -/
def c2mState : AllocState :=
  { mem := wr memZero 1000 2066, buckets := wr bk0 7 1000,
    heap_start := 500, heap_end := 2000, brk := 3000, map_next := 100000 }

theorem wr_self (m : Mem) (a v : ℕ) : wr m a v a = v := by simp [wr]

theorem wr_ne (m : Mem) (a v x : ℕ) (h : x ≠ a) : wr m a v x = m x := by
  simp [wr, h]

theorem ALIGN_of_dvd (x : ℕ) (h : 8 ∣ x) : ALIGN x = x := by
  unfold ALIGN; omega

theorem ALLOC_SIZE_of_aligned (x : ℕ) (h8 : 8 ∣ x) (h16 : 16 ≤ x) :
    ALLOC_SIZE x = x := by
  unfold ALLOC_SIZE ALIGN
  rw [if_neg (by omega)]
  omega

theorem HEAP_INC_of_aligned (x : ℕ) (h8 : 8 ∣ x) (h16 : 16 ≤ x) :
    HEAP_INC x = x + 16 := by
  unfold HEAP_INC
  rw [ALLOC_SIZE_of_aligned x h8 h16, show FOOTER_SIZE = 8 from rfl]

theorem and_not1_of_even (f : ℕ) (h : 2 ∣ f) : and_not1 f = f := by
  unfold and_not1; omega

theorem or1_of_even (f : ℕ) (h : 2 ∣ f) : or1 f = f + 1 := by
  unfold or1; omega

theorem and_not3_of_dvd4 (f : ℕ) (h : 4 ∣ f) : and_not3 f = f := by
  unfold and_not3; omega

theorem and_not3_succ_of_dvd4 (f : ℕ) (h : 4 ∣ f) : and_not3 (f + 1) = f := by
  unfold and_not3; omega

theorem and2_of_dvd4 (f : ℕ) (h : 4 ∣ f) : and2 f = 0 := by
  unfold and2; omega

theorem and1_of_even (f : ℕ) (h : 2 ∣ f) : and1 f = 0 := by
  unfold and1; omega

/-- blk_remove on a block that is the head of its bucket with no successor:
the bucket becomes empty and memory is untouched. -/
theorem blk_remove_head_singleton (s : AllocState) (b i : ℕ)
    (h2 : 2 ∣ s.mem b)
    (hidx : BUCKET_INDEX (s.mem b) = some i)
    (hhead : s.buckets i = b)
    (hnx : s.mem (b + nextOff) = 0) :
    blk_remove s b = some { s with buckets := wr s.buckets i 0 } := by
  unfold blk_remove
  rw [and_not1_of_even _ h2, hidx]
  simp [hhead, hnx, wr_self]

/-- blk_insert into an empty bucket: the block becomes the head with null
links. -/
theorem blk_insert_empty (s : AllocState) (b i : ℕ)
    (hidx : BUCKET_INDEX (s.mem b) = some i)
    (hb : s.buckets i = 0) :
    blk_insert s b =
      some { s with mem := wr (wr s.mem (b + nextOff) 0) (b + prevOff) 0,
                    buckets := wr s.buckets i b } := by
  unfold blk_insert
  rw [hidx]
  simp [hb]

/-- check_prev_free is true when the block is not the first heap block and the
word below it is even. -/
theorem check_prev_free_true (s : AllocState) (b : ℕ)
    (hhs : s.heap_start ≠ b) (hev : 2 ∣ s.mem (b - FOOTER_SIZE)) :
    check_prev_free s b = true := by
  unfold check_prev_free
  rw [if_neg hhs, and1_of_even _ hev]
  simp

/-- check_next_free is true when the next header exists (is not heap_end) and
is even; the address arithmetic is spelled out for an aligned block size. -/
theorem check_next_free_true (s : AllocState) (b sB : ℕ)
    (hb : s.mem b = sB) (h8 : 8 ∣ sB)
    (hne : b + sB + 16 ≠ s.heap_end)
    (hev : 2 ∣ s.mem (b + sB + 16)) :
    check_next_free s b = true := by
  unfold check_next_free
  rw [hb, and_not1_of_even _ (by omega)]
  dsimp only
  rw [show ALIGN 8 = 8 from rfl, show ALIGN sizeofFooter = 8 from rfl,
    ALIGN_of_dvd _ h8]
  rw [show b + 8 + sB + 8 = b + sB + 16 by omega]
  rw [if_neg hne, and1_of_even _ hev]
  simp

/-- coalesce_next, on an aligned free block whose free next neighbor is the
singleton head of its bucket: the merged header and footer carry
sN + sB + 16 and the next neighbor leaves its bucket. -/
theorem coalesce_next_spec (s : AllocState) (b sB sN iN : ℕ)
    (hb : s.mem b = sB) (h8 : 8 ∣ sB) (h16 : 16 ≤ sB)
    (hnh : s.mem (b + sB + 16) = sN) (hN8 : 8 ∣ sN) (hN16 : 16 ≤ sN)
    (hiN : BUCKET_INDEX sN = some iN)
    (hbN : s.buckets iN = b + sB + 16)
    (hsN : s.mem (b + sB + 16 + nextOff) = 0) :
    coalesce_next s b =
      some ({ s with buckets := wr s.buckets iN 0,
                     mem := wr (wr s.mem b (sN + sB + 16))
                               (b + sN + sB + 24) (sN + sB + 16) }, b) := by
  unfold coalesce_next
  rw [hb, HEAP_INC_of_aligned _ h8 h16]
  dsimp only
  rw [show b + (sB + 16) = b + sB + 16 by omega, hnh]
  rw [blk_remove_head_singleton s (b + sB + 16) iN (by rw [hnh]; omega)
    (by rw [hnh]; exact hiN) hbN hsN]
  rw [show ALIGN 8 = 8 from rfl, show ALIGN sizeofFooter = 8 from rfl]
  rw [HEAP_INC_of_aligned (sN + sB + 8 + 8) (by omega) (by omega)]
  rw [show FOOTER_SIZE = 8 from rfl]
  rw [show sN + sB + 8 + 8 = sN + sB + 16 by omega,
      show b + (sN + sB + 16 + 16) - 8 = b + sN + sB + 24 by omega]

/-- coalesce_prev, on an aligned free block whose free previous neighbor is
the singleton head of its bucket: the merged block starts at the previous
header b - 16 - sP, its header and footer carry sP + sB + 16, and the
previous neighbor leaves its bucket. -/
theorem coalesce_prev_spec (s : AllocState) (b sB sP iP : ℕ)
    (hb : s.mem b = sB) (h8 : 8 ∣ sB) (h16 : 16 ≤ sB)
    (hpf : s.mem (b - FOOTER_SIZE) = sP) (hP8 : 8 ∣ sP) (hP16 : 16 ≤ sP)
    (hlow : 16 + sP ≤ b)
    (hph : s.mem (b - 16 - sP) = sP)
    (hiP : BUCKET_INDEX sP = some iP)
    (hbP : s.buckets iP = b - 16 - sP)
    (hsP : s.mem (b - 16 - sP + nextOff) = 0) :
    coalesce_prev s b =
      some ({ s with buckets := wr s.buckets iP 0,
                     mem := wr (wr s.mem (b - 16 - sP) (sP + sB + 16))
                               (b + sB + 8) (sP + sB + 16) }, b - 16 - sP) := by
  unfold coalesce_prev
  dsimp only
  rw [show FOOTER_SIZE = 8 from rfl] at hpf ⊢
  rw [hpf, hb]
  rw [show ALIGN 8 = 8 from rfl, ALIGN_of_dvd _ hP8]
  rw [show b - 8 - 8 - sP = b - 16 - sP by omega]
  rw [blk_remove_head_singleton s (b - 16 - sP) iP (by rw [hph]; omega)
    (by rw [hph]; exact hiP) hbP hsP]
  dsimp only
  rw [HEAP_INC_of_aligned (sP + sB + 8 + 8) (by omega) (by omega)]
  rw [show sP + sB + 8 + 8 = sP + sB + 16 by omega]
  rw [show b - 16 - sP + (sP + sB + 16 + 16) - 8 = b + sB + 8 by omega]

/-- C1: when release coalesces a heap-resident block (payload sB, aligned,
at header address b) with one or both free address-neighbors, the merged
block's payload size is the sum of the payload sizes of the merged originals
plus 16 bytes (2 times the 8-byte alignment unit) for each absorbed internal
header+footer pair, in each of the four prev/next cases: no merge keeps sB,
next-merge yields sB + sN + 16, prev-merge yields sP + sB + 16, and the
double merge yields sP + sB + sN + 32.  The free neighbors are the heads of
their buckets with no list successor, which is how release leaves them in a
freshly coalesced heap. -/
theorem coalesce_merged_payload_sizes (s : AllocState) (b sB : ℕ)
    (hb : s.mem b = sB) (h8 : 8 ∣ sB) (h16 : 16 ≤ sB) :
    (check_prev_free s b = false → check_next_free s b = false →
        coalesce s b = some (s, b)) ∧
    (∀ sN iN, check_prev_free s b = false →
        s.mem (b + sB + 16) = sN → 8 ∣ sN → 16 ≤ sN →
        b + sB + 16 ≠ s.heap_end →
        BUCKET_INDEX sN = some iN → s.buckets iN = b + sB + 16 →
        s.mem (b + sB + 16 + nextOff) = 0 →
        (coalesce s b).map (fun r => (r.2, r.1.mem r.2)) =
          some (b, sB + sN + 2 * 8)) ∧
    (∀ sP iP, check_next_free s b = false →
        s.heap_start ≠ b →
        s.mem (b - FOOTER_SIZE) = sP → 8 ∣ sP → 16 ≤ sP → 16 + sP ≤ b →
        s.mem (b - 16 - sP) = sP →
        BUCKET_INDEX sP = some iP → s.buckets iP = b - 16 - sP →
        s.mem (b - 16 - sP + nextOff) = 0 →
        (coalesce s b).map (fun r => (r.2, r.1.mem r.2)) =
          some (b - 16 - sP, sP + sB + 2 * 8)) ∧
    (∀ sP sN iP iN, s.heap_start ≠ b →
        s.mem (b - FOOTER_SIZE) = sP → 8 ∣ sP → 16 ≤ sP → 16 + sP ≤ b →
        s.mem (b - 16 - sP) = sP →
        BUCKET_INDEX sP = some iP → s.buckets iP = b - 16 - sP →
        s.mem (b - 16 - sP + nextOff) = 0 →
        s.mem (b + sB + 16) = sN → 8 ∣ sN → 16 ≤ sN →
        b + sB + 16 ≠ s.heap_end →
        BUCKET_INDEX sN = some iN → s.buckets iN = b + sB + 16 →
        s.mem (b + sB + 16 + nextOff) = 0 →
        (coalesce s b).map (fun r => (r.2, r.1.mem r.2)) =
          some (b - 16 - sP, sP + sB + sN + 2 * (2 * 8))) := by
  refine ⟨?_, ?_, ?_, ?_⟩
  · intro hp hn
    unfold coalesce
    simp [hp, hn]
  · intro sN iN hp hnh hN8 hN16 hne hiN hbN hsN
    have hn : check_next_free s b = true :=
      check_next_free_true s b sB hb h8 hne (by rw [hnh]; omega)
    unfold coalesce
    rw [hp, hn]
    show (coalesce_next s b).map (fun r => (r.2, r.1.mem r.2)) =
      some (b, sB + sN + 2 * 8)
    rw [coalesce_next_spec s b sB sN iN hb h8 h16 hnh hN8 hN16 hiN hbN hsN]
    rw [Option.map_some']
    simp only [Option.some_inj, Prod.mk.injEq, true_and]
    simp only [wr]
    split_ifs <;> omega
  · intro sP iP hn hhs hpf hP8 hP16 hlow hph hiP hbP hsP
    have hp : check_prev_free s b = true :=
      check_prev_free_true s b hhs (by rw [hpf]; omega)
    unfold coalesce
    rw [hp, hn]
    show (coalesce_prev s b).map (fun r => (r.2, r.1.mem r.2)) =
      some (b - 16 - sP, sP + sB + 2 * 8)
    rw [coalesce_prev_spec s b sB sP iP hb h8 h16 hpf hP8 hP16 hlow hph hiP hbP hsP]
    rw [Option.map_some']
    simp only [Option.some_inj, Prod.mk.injEq, true_and]
    simp only [wr]
    split_ifs <;> omega
  · intro sP sN iP iN hhs hpf hP8 hP16 hlow hph hiP hbP hsP hnh hN8 hN16 hne hiN hbN hsN
    have hp : check_prev_free s b = true :=
      check_prev_free_true s b hhs (by rw [hpf]; omega)
    have hn : check_next_free s b = true :=
      check_next_free_true s b sB hb h8 hne (by rw [hnh]; omega)
    have hiNP : iN ≠ iP := by
      intro h
      rw [h, hbP] at hbN
      omega
    unfold coalesce
    rw [hp, hn]
    rw [coalesce_prev_spec s b sB sP iP hb h8 h16 hpf hP8 hP16 hlow hph hiP hbP hsP]
    show (coalesce_next
        { mem := wr (wr s.mem (b - 16 - sP) (sP + sB + 16)) (b + sB + 8) (sP + sB + 16),
          buckets := wr s.buckets iP 0, heap_start := s.heap_start,
          heap_end := s.heap_end, brk := s.brk, map_next := s.map_next }
        (b - 16 - sP)).map (fun r => (r.2, r.1.mem r.2)) =
      some (b - 16 - sP, sP + sB + sN + 2 * (2 * 8))
    rw [coalesce_next_spec _ (b - 16 - sP) (sP + sB + 16) sN iN
      (by dsimp only; rw [wr_ne _ _ _ _ (by omega), wr_self])
      (by omega) (by omega)
      (by dsimp only
          rw [show b - 16 - sP + (sP + sB + 16) + 16 = b + sB + 16 by omega,
              wr_ne _ _ _ _ (by omega), wr_ne _ _ _ _ (by omega)]
          exact hnh)
      hN8 hN16 hiN
      (by dsimp only
          rw [show b - 16 - sP + (sP + sB + 16) + 16 = b + sB + 16 by omega,
              wr_ne _ _ _ _ hiNP]
          exact hbN)
      (by dsimp only
          rw [show b - 16 - sP + (sP + sB + 16) + 16 + nextOff = b + sB + 16 + nextOff by
                unfold nextOff; omega,
              wr_ne _ _ _ _ (by unfold nextOff; omega),
              wr_ne _ _ _ _ (by unfold nextOff; omega)]
          exact hsN)]
    rw [Option.map_some']
    simp only [Option.some_inj, Prod.mk.injEq, true_and]
    simp only [wr]
    split_ifs <;> omega

/-- Witness for C1: the four coalesce cases evaluated on concrete states.
No merge keeps payload 24; merging with a free 48-byte next neighbor gives
24 + 48 + 16 = 88; merging with a free 16-byte previous neighbor gives
16 + 24 + 16 = 56; merging with both gives 16 + 24 + 48 + 32 = 120. -/
theorem coalesce_merged_payload_sizes_witness :
    coalesce c1aState 1000 = some (c1aState, 1000) ∧
    (coalesce c1bState 1000).map (fun r => (r.2, r.1.mem r.2)) = some (1000, 88) ∧
    (coalesce c1cState 1056).map (fun r => (r.2, r.1.mem r.2)) = some (1024, 56) ∧
    (coalesce c1dState 1040).map (fun r => (r.2, r.1.mem r.2)) = some (1008, 120) :=
  ⟨(coalesce_merged_payload_sizes c1aState 1000 24 (by decide) (by decide)
      (by decide)).1 (by decide) (by decide),
   (coalesce_merged_payload_sizes c1bState 1000 24 (by decide) (by decide)
      (by decide)).2.1 48 2 (by decide) (by decide) (by decide) (by decide)
      (by decide) (by decide) (by decide) (by decide),
   (coalesce_merged_payload_sizes c1cState 1056 24 (by decide) (by decide)
      (by decide)).2.2.1 16 0 (by decide) (by decide) (by decide) (by decide)
      (by decide) (by decide) (by decide) (by decide) (by decide) (by decide),
   (coalesce_merged_payload_sizes c1dState 1040 24 (by decide) (by decide)
      (by decide)).2.2.2 16 48 0 2 (by decide) (by decide) (by decide)
      (by decide) (by decide) (by decide) (by decide) (by decide) (by decide)
      (by decide) (by decide) (by decide) (by decide) (by decide) (by decide)
      (by decide)⟩

/-- C8: _bucket_index is the position of the smallest size class whose upper
bound is at least the size only away from the class boundaries.  At the
boundary sizes 32, 64, 128, 256, 512 and 1024 the while loop upper test is
strict (size < bucket << 1) and the loop is then exhausted, so the non-void
function falls off its end without returning (undefined behavior, modelled
none) instead of producing the indices 1..6 the table prescribes;
non-boundary sizes land as the table says. -/
theorem bucket_index_boundary_bug :
    _bucket_index 32 = none ∧ _bucket_index 64 = none ∧
    _bucket_index 128 = none ∧ _bucket_index 256 = none ∧
    _bucket_index 512 = none ∧ _bucket_index 1024 = none ∧
    _bucket_index 16 = some 0 ∧ _bucket_index 17 = some 1 ∧
    _bucket_index 24 = some 1 ∧ _bucket_index 33 = some 2 ∧
    _bucket_index 1023 = some 6 ∧ _bucket_index 1025 = some 7 := by
  decide

/-- C3: first_fit compares with a strict less-than (size < ptr->flags), so a
free block whose payload size is exactly the request is skipped: on a bucket
list holding exactly one free block of payload 16, a request of 16 returns
NULL (modelled some 0) although the claim requires the exact-size block to
be returned; a request of 15 does return the block. -/
theorem first_fit_strict_comparison_bug :
    c3State.buckets 0 = 1000 ∧ c3State.mem 1000 = 16 ∧
    first_fit c3State 0 16 = some 0 ∧
    first_fit c3State 0 15 = some 1000 := by
  decide

/-- C7: mark_alloc writes its footer unconditionally: on a free mapped block
(flags 2002 = payload 2000 with the M bit) it writes the footer word 2003 at
offset HEAP_INC(2002) - 8 = 2016 past the header, memory that is not gated
on M = 0 and lies beyond the mapped payload.  mark_dealloc does gate its
footer write, but the claim quantifies over both marking paths. -/
theorem mark_alloc_footer_not_gated_bug :
    and2 (c7State.mem 100000) = 2 ∧
    c7State.mem 102016 = 0 ∧
    (mark_alloc c7State 100000).mem 102016 = 2003 := by
  decide

/-- C5: reallocate(p, 0) on the allocated 24-byte block at payload 1008 does
release the block (seg_free alone succeeds on this state), but the code then
falls through, reads the freed header and calls seg_malloc(0), whose
assertion size > 0 fails: the whole call aborts (none) instead of returning
null without a new allocation. -/
theorem realloc_zero_size_aborts_bug :
    (seg_malloc st0 24).map (fun r => r.2) = some 1008 ∧
    and1 (c5State.mem 1000) = 1 ∧
    (seg_free c5State 1008).isSome = true ∧
    (seg_realloc c5State 1008 0).isSome = false := by
  decide

/-- C4: seg_realloc copies old_size = header->flags and-not 3 bytes, not
min(old, new).  On the allocated 24-byte block at 1008 holding the payload
words 111, 222, 999, reallocate to 16 creates the new block with header
1040, payload 1048 and footer 17 at 1064, then copies 24 bytes: the third
word 999 lands on 1064 and destroys the fresh footer, although
min(24, 16) = 16 bytes would have stopped at 1064. -/
theorem realloc_copies_old_size_bug :
    realloc_old_size c4State 1008 = 24 ∧
    (seg_malloc c4State 16).map (fun r => (r.2, r.1.mem 1064)) = some (1048, 17) ∧
    (seg_realloc c4State 1008 16).map (fun r => (r.2, r.1.mem 1048, r.1.mem 1056, r.1.mem 1064)) =
      some (1048, 111, 222, 999) := by
  decide

theorem ALLOC_SIZE_ge (x : ℕ) : 16 ≤ ALLOC_SIZE x := by
  unfold ALLOC_SIZE ALIGN; split <;> omega

theorem ALLOC_SIZE_dvd (x : ℕ) : 8 ∣ ALLOC_SIZE x := by
  unfold ALLOC_SIZE ALIGN; split <;> omega

/-- C2: for a heap-resident free block of payload size F that search picks
for a request of rounded size R = ALLOC_SIZE(size), get_free_blk splits it
exactly when F is at least R + MIN_SIZE_BLOCK = R + 32, the split leaves a
right-hand free block of payload F - R - 16 at header b + R + 16, and a
block whose header carries the M bit is never split (the found block is
returned untouched). -/
theorem split_policy_and_remainder (s : AllocState) (size b F : ℕ)
    (hsearch : search_free_blk s size = some b) (hb0 : b ≠ 0)
    (hF : s.mem b = F) :
    (and2 F = 0 → MIN_SIZE_BLOCK + ALLOC_SIZE size ≤ F →
        get_free_blk s size = (split s b size).map fun s' => (s', b)) ∧
    (and2 F = 0 → F < MIN_SIZE_BLOCK + ALLOC_SIZE size →
        get_free_blk s size = some (s, b)) ∧
    (and2 F ≠ 0 → get_free_blk s size = some (s, b)) ∧
    (∀ i iL iR, 8 ∣ F →
        MIN_SIZE_BLOCK + ALLOC_SIZE size ≤ F →
        BUCKET_INDEX F = some i → s.buckets i = b →
        s.mem (b + nextOff) = 0 →
        BUCKET_INDEX (ALLOC_SIZE size) = some iL →
        BUCKET_INDEX (SPLIT_SIZE F size) = some iR → iL ≠ iR →
        wr s.buckets i 0 iL = 0 → wr s.buckets i 0 iR = 0 →
        (split s b size).map (fun s' => s'.mem (b + ALLOC_SIZE size + 16)) =
          some (F - ALLOC_SIZE size - 2 * 8)) := by
  refine ⟨?_, ?_, ?_, ?_⟩
  · intro hM hworth
    unfold get_free_blk
    rw [hsearch]
    dsimp only
    rw [if_pos hb0, if_pos ⟨by rw [hF]; exact decide_eq_true hworth, by rw [hF]; exact hM⟩]
  · intro hM hnw
    unfold get_free_blk
    rw [hsearch]
    dsimp only
    rw [if_pos hb0, if_neg ?_]
    intro h
    rw [hF] at h
    exact absurd (of_decide_eq_true h.1) (by omega)
  · intro hM
    unfold get_free_blk
    rw [hsearch]
    dsimp only
    rw [if_pos hb0, if_neg ?_]
    intro h
    rw [hF] at h
    exact hM h.2
  · intro i iL iR h8 hworth hi hhead hnx hiL hiR hLR hbL hbR
    have hge := ALLOC_SIZE_ge size
    have hdvd := ALLOC_SIZE_dvd size
    have hworth' : 32 + ALLOC_SIZE size ≤ F := by
      rw [show MIN_SIZE_BLOCK = 32 from rfl] at hworth
      exact hworth
    have hsp : SPLIT_SIZE F size = F - 16 - ALLOC_SIZE size := by
      unfold SPLIT_SIZE
      rw [show FOOTER_SIZE = 8 from rfl, show ALIGN 8 = 8 from rfl]
      omega
    have h8r : 8 ∣ SPLIT_SIZE F size := by rw [hsp]; omega
    have h16r : 16 ≤ SPLIT_SIZE F size := by rw [hsp]; omega
    unfold split
    rw [hF]
    rw [blk_remove_head_singleton s b i (by rw [hF]; omega) (by rw [hF]; exact hi) hhead hnx]
    dsimp only
    rw [show FOOTER_SIZE = 8 from rfl]
    rw [HEAP_INC_of_aligned (SPLIT_SIZE F size) h8r h16r]
    rw [blk_insert_empty _ b iL
      (by dsimp only
          rw [wr_ne _ _ _ _ (by omega), wr_ne _ _ _ _ (by omega), wr_ne _ _ _ _ (by omega),
            wr_self]
          exact hiL)
      (by dsimp only; exact hbL)]
    dsimp only
    rw [blk_insert_empty _ (b + ALLOC_SIZE size + 8 + 8) iR
      (by dsimp only
          rw [wr_ne _ _ _ _ (by simp only [nextOff, prevOff]; omega),
            wr_ne _ _ _ _ (by simp only [nextOff, prevOff]; omega),
            wr_ne _ _ _ _ (by omega), wr_self]
          exact hiR)
      (by dsimp only
          rw [wr_ne _ _ _ _ (Ne.symm hLR)]
          exact hbR)]
    dsimp only
    rw [Option.map_some']
    rw [show b + ALLOC_SIZE size + 16 = b + ALLOC_SIZE size + 8 + 8 by omega]
    dsimp only
    rw [wr_ne _ _ _ _ (by simp only [nextOff, prevOff]; omega),
      wr_ne _ _ _ _ (by simp only [nextOff, prevOff]; omega),
      wr_ne _ _ _ _ (by simp only [nextOff, prevOff]; omega),
      wr_ne _ _ _ _ (by simp only [nextOff, prevOff]; omega),
      wr_ne _ _ _ _ (by omega), wr_self]
    rw [Option.some_inj, hsp]
    omega

/-- Witness for C2: on a free 56-byte block found for a request of 20
(rounded to 24), 56 is at least 24 + 32 so the block is split and the right
half has payload 56 - 24 - 16 = 16; on a free 40-byte block the same request
does not split (40 is less than 56); a free block with the M bit set and
flags 2066 is returned unsplit for a request of 2000 even though
WORTH_SPLIT(2066, 2000) holds. -/
theorem split_policy_and_remainder_witness :
    get_free_blk c2State 20 = ((split c2State 1000 20).map fun s' => (s', 1000)) ∧
    (split c2State 1000 20).map (fun s' => s'.mem (1000 + 24 + 16)) = some 16 ∧
    get_free_blk c9State 20 = some (c9State, 1000) ∧
    get_free_blk c2mState 2000 = some (c2mState, 1000) ∧
    and2 2066 ≠ 0 ∧ WORTH_SPLIT 2066 2000 = true :=
  ⟨(split_policy_and_remainder c2State 20 1000 56 (by decide) (by decide)
      (by decide)).1 (by decide) (by decide),
   (split_policy_and_remainder c2State 20 1000 56 (by decide) (by decide)
      (by decide)).2.2.2 2 1 0 (by decide) (by decide) (by decide) (by decide)
      (by decide) (by decide) (by decide) (by decide) (by decide) (by decide),
   (split_policy_and_remainder c9State 20 1000 40 (by decide) (by decide)
      (by decide)).2.1 (by decide) (by decide),
   (split_policy_and_remainder c2mState 2000 1000 2066 (by decide) (by decide)
      (by decide)).2.2.1 (by decide),
   by decide, by decide⟩

/-- get_free_blk on a found block when the split condition fails: the block
is returned as is. -/
theorem get_free_blk_found_no_split (s : AllocState) (size b : ℕ)
    (hsearch : search_free_blk s size = some b) (hb0 : b ≠ 0)
    (hcond : ¬ (WORTH_SPLIT (s.mem b) size = true ∧ and2 (s.mem b) = 0)) :
    get_free_blk s size = some (s, b) := by
  unfold get_free_blk
  rw [hsearch]
  dsimp only
  rw [if_pos hb0, if_neg hcond]

/-- C9: when the free block found for a request (rounded size R) is not
split because F < R + MIN_SIZE_BLOCK, seg_malloc returns it with its header
changed only by the A bit (value or1 F = F + 1), so the caller receives a
block whose recorded payload stays F, which may strictly exceed R; and the
old-payload count that seg_realloc would read for the returned pointer
(realloc_old_size, the num argument of its MEMCPY) is exactly F, not R. -/
theorem no_split_keeps_full_payload (s : AllocState) (size b F i : ℕ)
    (hsz : size ≠ 0)
    (hsearch : search_free_blk s size = some b) (hb0 : b ≠ 0)
    (hF : s.mem b = F) (h8 : 8 ∣ F)
    (hnosplit : F < MIN_SIZE_BLOCK + ALLOC_SIZE size)
    (hexceed : ALLOC_SIZE size < F)
    (hi : BUCKET_INDEX F = some i) (hhead : s.buckets i = b)
    (hnx : s.mem (b + nextOff) = 0) :
    (seg_malloc s size).map
        (fun r => (r.2, r.1.mem (free_header_of r.2), realloc_old_size r.1 r.2)) =
      some (b + PTR_OFF, or1 F, F) ∧ ALLOC_SIZE size < F := by
  refine ⟨?_, hexceed⟩
  have h16 : 16 ≤ F := by have := ALLOC_SIZE_ge size; omega
  have hmsb : MIN_SIZE_BLOCK = 32 := rfl
  unfold seg_malloc
  rw [if_neg hsz]
  rw [get_free_blk_found_no_split s size b hsearch hb0
    (by rw [hF]; intro h; exact absurd (of_decide_eq_true h.1) (by omega))]
  dsimp only
  rw [blk_remove_head_singleton s b i (by rw [hF]; omega) (by rw [hF]; exact hi) hhead hnx]
  dsimp only
  unfold mark_alloc
  dsimp only
  rw [hF, HEAP_INC_of_aligned F h8 h16, show FOOTER_SIZE = 8 from rfl, wr_self]
  rw [Option.map_some']
  rw [show free_header_of (b + PTR_OFF) = b from by
    unfold free_header_of PTR_OFF ALIGN; omega]
  unfold realloc_old_size
  rw [show free_header_of (b + PTR_OFF) = b from by
    unfold free_header_of PTR_OFF ALIGN; omega]
  dsimp only
  rw [wr_ne _ _ _ _ (by omega), wr_self]
  rw [or1_of_even F (by omega), and_not3_succ_of_dvd4 F (by omega)]

/-- Witness for C9: a free 40-byte block found for a request of 20 (rounded
to 24) is not split (40 < 56); seg_malloc returns payload pointer 1008 with
header word 41 = 40 + 1, and seg_realloc's old-size read for that pointer is
40, strictly larger than the rounded request 24. -/
theorem no_split_keeps_full_payload_witness :
    (seg_malloc c9State 20).map
        (fun r => (r.2, r.1.mem (free_header_of r.2), realloc_old_size r.1 r.2)) =
      some (1008, 41, 40) ∧ ALLOC_SIZE 20 < 40 :=
  no_split_keeps_full_payload c9State 20 1000 40 2 (by decide) (by decide)
    (by decide) (by decide) (by decide) (by decide) (by decide) (by decide)
    (by decide) (by decide)

/-- C10: every pointer seg_malloc returns is the chosen block's header plus
PTR_OFF = ALIGN(sizeof(uint64_t)) = 8, for heap-resident and
mapping-resident blocks alike (the return path is shared), and seg_free's
header recovery free_header_of gives back exactly that header. -/
theorem payload_header_offset_roundtrip (s : AllocState) (size p : ℕ)
    (h : (seg_malloc s size).map Prod.snd = some p) :
    (get_free_blk s size).map (fun r => r.2 + PTR_OFF) = some p ∧
    free_header_of p = ((get_free_blk s size).map Prod.snd).getD 0 ∧
    PTR_OFF = 8 := by
  unfold seg_malloc at h
  by_cases hsz : size = 0
  · rw [if_pos hsz] at h
    exact absurd h (by simp)
  · rw [if_neg hsz] at h
    cases hg : get_free_blk s size with
    | none =>
      rw [hg] at h
      exact absurd h (by simp)
    | some r =>
      obtain ⟨s₁, hd⟩ := r
      rw [hg] at h
      dsimp only at h
      cases hr : blk_remove s₁ hd with
      | none =>
        rw [hr] at h
        exact absurd h (by simp)
      | some s₂ =>
        rw [hr] at h
        rw [Option.map_some'] at h
        rw [Option.some_inj] at h
        dsimp only at h
        refine ⟨?_, ?_, rfl⟩
        · rw [Option.map_some']
          dsimp only
          rw [h]
        · rw [Option.map_some']
          dsimp only
          unfold free_header_of
          rw [← h, show PTR_OFF = 8 from rfl, Option.getD_some]
          omega

/-- Witness for C10: on the empty engine, allocate(24) (heap regime) returns
1008 = 1000 + 8 for the block created at header 1000, and allocate(2000)
(mapping regime) returns 100008 = 100000 + 8; in both cases seg_free's
header recovery returns the created header. -/
theorem payload_header_offset_roundtrip_witness :
    ((seg_malloc st0 24).map Prod.snd = some 1008 ∧
     (get_free_blk st0 24).map (fun r => r.2 + PTR_OFF) = some 1008 ∧
     free_header_of 1008 = ((get_free_blk st0 24).map Prod.snd).getD 0) ∧
    ((seg_malloc st0 2000).map Prod.snd = some 100008 ∧
     (get_free_blk st0 2000).map (fun r => r.2 + PTR_OFF) = some 100008 ∧
     free_header_of 100008 = ((get_free_blk st0 2000).map Prod.snd).getD 0) :=
  ⟨⟨by decide, (payload_header_offset_roundtrip st0 24 1008 (by decide)).1,
      (payload_header_offset_roundtrip st0 24 1008 (by decide)).2.1⟩,
   ⟨by decide, (payload_header_offset_roundtrip st0 2000 100008 (by decide)).1,
      (payload_header_offset_roundtrip st0 2000 100008 (by decide)).2.1⟩⟩

theorem or2_of_dvd4 (f : ℕ) (h : 4 ∣ f) : or2 f = f + 2 := by
  unfold or2; omega

theorem first_fit_empty (s : AllocState) (idx size : ℕ) (h : s.buckets idx = 0) :
    first_fit s idx size = some 0 := by
  unfold first_fit
  rw [h]
  rfl

theorem search_loop_exit (fuel : ℕ) (s : AllocState) (size idx : ℕ)
    (h : 8 ≤ idx) :
    search_loop fuel s size idx = some 0 := by
  cases fuel with
  | zero =>
    unfold search_loop
    rw [if_neg (by rw [show NUM_BUCKETS = 8 from rfl]; omega)]
  | succ f =>
    unfold search_loop
    rw [if_neg (by rw [show NUM_BUCKETS = 8 from rfl]; omega)]

/-- A request whose bucket index is the large class 7 misses when bucket 7
is empty: the search returns NULL. -/
theorem search_free_blk_bucket7_empty (s : AllocState) (size : ℕ)
    (hidx : BUCKET_INDEX size = some 7) (hb7 : s.buckets 7 = 0) :
    search_free_blk s size = some 0 := by
  unfold search_free_blk
  rw [hidx]
  show search_loop (7 + 1) s size 7 = some 0
  unfold search_loop
  rw [if_pos (by rw [show NUM_BUCKETS = 8 from rfl]; omega)]
  rw [first_fit_empty s 7 size hb7]
  show (if (0:ℕ) ≠ 0 then some 0 else search_loop 7 s size (7 + 1)) = some 0
  rw [if_neg (by omega)]
  exact search_loop_exit 7 s size 8 (by omega)

/-- C6 amended: on a free-list miss for a large request (HEAP_SIZE false),
new_free_blk creates the mapping-resident block at map_next and DOES push it
into bucket 7, leaving heap_start and heap_end untouched; seg_malloc then
removes it again before returning the payload pointer, so after the public
operation bucket 7 is empty again and the heap extent is still untouched. -/
theorem mapped_block_transient_insert (s : AllocState) (size : ℕ)
    (hbig : HEAP_SIZE size = false)
    (hidx : BUCKET_INDEX (or2 (ALLOC_SIZE size)) = some 7)
    (hidx2 : BUCKET_INDEX size = some 7)
    (hb7 : s.buckets 7 = 0) :
    (new_free_blk s size).map
        (fun r => (r.2, r.1.buckets 7, r.1.heap_start, r.1.heap_end)) =
      some (s.map_next, s.map_next, s.heap_start, s.heap_end) ∧
    (seg_malloc s size).map
        (fun r => (r.2, r.1.buckets 7, r.1.heap_start, r.1.heap_end)) =
      some (s.map_next + PTR_OFF, 0, s.heap_start, s.heap_end) := by
  have hsz : size ≠ 0 := by
    intro h
    rw [h] at hbig
    exact absurd hbig (by decide)
  have hcond : ¬ (HEAP_SIZE size = true) := by
    rw [hbig]
    exact Bool.false_ne_true
  have hA8 := ALLOC_SIZE_dvd size
  have hor2 : or2 (ALLOC_SIZE size) = ALLOC_SIZE size + 2 := or2_of_dvd4 _ (by omega)
  have hnew : new_free_blk s size =
      some ({ s with
        mem := wr (wr (wr s.mem s.map_next (or2 (ALLOC_SIZE size)))
                      (s.map_next + nextOff) 0) (s.map_next + prevOff) 0,
        buckets := wr s.buckets 7 s.map_next,
        map_next := s.map_next + PAGES (MAP_INC size) * PAGE_SIZE }, s.map_next) := by
    unfold new_free_blk blk_create chunk_get
    simp only [if_neg hcond]
    rw [blk_insert_empty _ s.map_next 7 (by dsimp only; rw [wr_self]; exact hidx)
      (by dsimp only; exact hb7)]
  refine ⟨?_, ?_⟩
  · rw [hnew, Option.map_some']
    dsimp only
    rw [wr_self]
  · unfold seg_malloc
    rw [if_neg hsz]
    unfold get_free_blk
    rw [search_free_blk_bucket7_empty s size hidx2 hb7]
    dsimp only
    rw [if_neg (by omega)]
    rw [hnew]
    dsimp only
    rw [blk_remove_head_singleton _ s.map_next 7
      (by dsimp only
          rw [wr_ne _ _ _ _ (by simp only [nextOff, prevOff]; omega),
            wr_ne _ _ _ _ (by simp only [nextOff, prevOff]; omega), wr_self, hor2]
          omega)
      (by dsimp only
          rw [wr_ne _ _ _ _ (by simp only [nextOff, prevOff]; omega),
            wr_ne _ _ _ _ (by simp only [nextOff, prevOff]; omega), wr_self]
          exact hidx)
      (by dsimp only; rw [wr_self])
      (by dsimp only
          rw [wr_ne _ _ _ _ (by simp only [nextOff, prevOff]; omega), wr_self])]
    dsimp only
    unfold mark_alloc
    dsimp only
    rw [Option.map_some']
    dsimp only
    rw [wr_self]

/-- Counterexample for C6 as stated: on the empty engine, new_free_blk for
the large request 2000 creates the mapping-resident block at 100000 and
inserts it into bucket 7 at creation, so the head of bucket 7 becomes the
block itself rather than staying NULL. -/
theorem mapped_block_inserted_at_creation :
    HEAP_SIZE 2000 = false ∧
    (new_free_blk st0 2000).map (fun r => (r.2, r.1.buckets 7)) =
      some (100000, 100000) := by
  decide

/-- Witness for C6 amended: allocate(2000) on the empty engine.  At creation
the mapped block 100000 heads bucket 7; after seg_malloc returns 100008 the
bucket is empty again, and heap_start and heap_end stay 0 throughout. -/
theorem mapped_block_transient_insert_witness :
    (new_free_blk st0 2000).map
        (fun r => (r.2, r.1.buckets 7, r.1.heap_start, r.1.heap_end)) =
      some (100000, 100000, 0, 0) ∧
    (seg_malloc st0 2000).map
        (fun r => (r.2, r.1.buckets 7, r.1.heap_start, r.1.heap_end)) =
      some (100008, 0, 0, 0) :=
  ⟨(mapped_block_transient_insert st0 2000 (by decide) (by decide) (by decide)
      (by decide)).1,
   (mapped_block_transient_insert st0 2000 (by decide) (by decide) (by decide)
      (by decide)).2⟩
